import Mathlib

/-!
Shallow embedding of the IPE scoring engine of src/job_eval.py: the static
lookup tables, the score composition function calculate_ipe_score and the
level mapping score_to_level, together with theorems checking the specified
properties of the engine.

Modelling choices: Python float rating values and table keys are modelled as
rationals (every finite float is a rational, and Python dictionary lookup
compares exact numeric values, with int and float keys equal when their
values are equal); fractional literals are written with mkRat, so 2.5 is
mkRat 5 2; the point values of the five points tables are integer literals
in the source and are modelled as integers; Python int() applied to a
numeric value truncates toward zero and is modelled by pyInt; the Python
dict of ratings is modelled as a record of optional values, one per
dimension key read by the engine, so that a missing key is representable.
-/

namespace JobEval

/-- Python int() on a numeric value: truncation toward zero. On a rational
in lowest terms this is the truncated quotient of numerator by denominator. -/
def pyInt (q : ℚ) : ℤ := q.num.tdiv q.den

/-- Association-list lookup with rational keys: Python dict lookup d.get(k),
returning none when the key is absent. -/
def assoc {α : Type} (l : List (ℚ × α)) (k : ℚ) : Option α :=
  match l with
  | [] => none
  | (k2, v) :: rest => if k = k2 then some v else assoc rest k

/-- Two-level lookup without a default: Python d.get(r, emptydict).get(c),
none when the row is absent or the column is absent from the row. -/
def assoc2 {α : Type} (t : List (ℚ × List (ℚ × α))) (r c : ℚ) : Option α :=
  match assoc t r with
  | none => none
  | some row => assoc row c

/-- Python d.get(r, emptydict).get(c, dflt). -/
def lookup2 {α : Type} (t : List (ℚ × List (ℚ × α))) (r c : ℚ) (dflt : α) : α :=
  (assoc2 t r c).getD dflt

/-- Python d.get(k, dflt) on a one-level table. -/
def lookup1 {α : Type} (t : List (ℚ × α)) (k : ℚ) (dflt : α) : α :=
  (assoc t k).getD dflt

/-- Impact and Contribution points table (intermediate lookup); the values are the fractional intermediate row keys into the Impact and Size table. -/
def IMPACT_CONTRIBUTION_TABLE : List (ℚ × List (ℚ × ℚ)) := [
  (1, [(1, 1), (mkRat 3 2, mkRat 3 2), (2, 2), (mkRat 5 2, mkRat 5 2), (3, 3), (mkRat 7 2, mkRat 7 2), (4, 4), (mkRat 9 2, mkRat 9 2), (5, 5)]),
  (mkRat 3 2, [(1, mkRat 5 2), (2, 3), (mkRat 5 2, mkRat 7 2), (3, 4), (mkRat 7 2, mkRat 9 2), (4, 5), (mkRat 9 2, mkRat 11 2), (5, mkRat 13 2)]),
  (2, [(1, 4), (mkRat 3 2, mkRat 9 2), (2, 5), (mkRat 5 2, mkRat 11 2), (3, 6), (mkRat 7 2, mkRat 13 2), (4, 7), (mkRat 9 2, mkRat 15 2), (5, 8)]),
  (mkRat 5 2, [(1, mkRat 11 2), (mkRat 3 2, 6), (2, mkRat 13 2), (mkRat 5 2, 7), (3, mkRat 15 2), (mkRat 7 2, 8), (4, mkRat 17 2), (mkRat 9 2, 9), (5, mkRat 19 2)]),
  (3, [(1, 7), (mkRat 3 2, mkRat 15 2), (2, 8), (mkRat 5 2, mkRat 17 2), (3, 9), (mkRat 7 2, mkRat 19 2), (4, 10), (mkRat 9 2, mkRat 21 2), (5, 11)]),
  (mkRat 7 2, [(1, mkRat 17 2), (mkRat 3 2, 9), (2, mkRat 19 2), (mkRat 5 2, 10), (3, mkRat 21 2), (mkRat 7 2, 11), (4, mkRat 23 2), (mkRat 9 2, 12), (5, mkRat 25 2)]),
  (4, [(1, 10), (mkRat 3 2, mkRat 21 2), (2, 11), (mkRat 5 2, mkRat 23 2), (3, 12), (mkRat 7 2, mkRat 25 2), (4, 13), (mkRat 9 2, mkRat 27 2), (5, 14)]),
  (mkRat 9 2, [(1, mkRat 23 2), (mkRat 3 2, 12), (2, mkRat 25 2), (mkRat 5 2, 13), (3, mkRat 27 2), (mkRat 7 2, 14), (4, mkRat 29 2), (mkRat 9 2, 15), (5, mkRat 31 2)]),
  (5, [(1, 13), (mkRat 3 2, mkRat 27 2), (2, 14), (mkRat 5 2, mkRat 29 2), (3, 15), (mkRat 7 2, mkRat 31 2), (4, 16), (mkRat 9 2, mkRat 33 2), (5, 17)])]

/-- Impact and Size points table: the row is the intermediate value from the Impact and Contribution lookup, the column is the truncated Size factor. -/
def IMPACT_SIZE_TABLE : List (ℚ × List (ℚ × ℤ)) := [
  (1, [(1, 5), (2, 5), (3, 5), (4, 5), (5, 5), (6, 5), (7, 5), (8, 5), (9, 5), (10, 5), (11, 5), (12, 5), (13, 5)]),
  (mkRat 3 2, [(1, 10), (2, 10), (3, 10), (4, 10), (5, 10), (6, 10), (7, 10), (8, 10), (9, 10), (10, 10), (11, 10), (12, 10), (13, 10)]),
  (2, [(1, 15), (2, 15), (3, 15), (4, 15), (5, 15), (6, 15), (7, 15), (8, 15), (9, 15), (10, 15), (11, 15), (12, 15), (13, 15)]),
  (mkRat 5 2, [(1, 20), (2, 20), (3, 20), (4, 20), (5, 20), (6, 20), (7, 20), (8, 20), (9, 20), (10, 20), (11, 20), (12, 20), (13, 20)]),
  (3, [(1, 25), (2, 25), (3, 25), (4, 25), (5, 25), (6, 25), (7, 25), (8, 25), (9, 25), (10, 25), (11, 25), (12, 25), (13, 25)]),
  (mkRat 7 2, [(1, 31), (2, 32), (3, 32), (4, 33), (5, 33), (6, 34), (7, 34), (8, 35), (9, 35), (10, 36), (11, 36), (12, 37), (13, 37)]),
  (4, [(1, 37), (2, 38), (3, 39), (4, 40), (5, 41), (6, 42), (7, 43), (8, 44), (9, 45), (10, 46), (11, 47), (12, 48), (13, 49)]),
  (mkRat 9 2, [(1, 41), (2, 43), (3, 44), (4, 46), (5, 47), (6, 49), (7, 50), (8, 52), (9, 53), (10, 55), (11, 56), (12, 58), (13, 59)]),
  (5, [(1, 44), (2, 46), (3, 48), (4, 50), (5, 52), (6, 54), (7, 56), (8, 58), (9, 60), (10, 62), (11, 64), (12, 66), (13, 68)]),
  (mkRat 11 2, [(1, 50), (2, 53), (3, 55), (4, 58), (5, 60), (6, 63), (7, 65), (8, 68), (9, 70), (10, 73), (11, 75), (12, 78), (13, 80)]),
  (6, [(1, 56), (2, 59), (3, 62), (4, 65), (5, 68), (6, 71), (7, 74), (8, 77), (9, 80), (10, 83), (11, 86), (12, 89), (13, 92)]),
  (mkRat 13 2, [(1, 60), (2, 64), (3, 67), (4, 71), (5, 74), (6, 78), (7, 81), (8, 85), (9, 88), (10, 92), (11, 95), (12, 99), (13, 102)]),
  (7, [(1, 63), (2, 67), (3, 71), (4, 75), (5, 79), (6, 83), (7, 87), (8, 91), (9, 95), (10, 99), (11, 103), (12, 107), (13, 111)]),
  (mkRat 15 2, [(1, 72), (2, 76), (3, 80), (4, 85), (5, 89), (6, 93), (7, 97), (8, 102), (9, 106), (10, 110), (11, 114), (12, 119), (13, 123)]),
  (8, [(1, 80), (2, 85), (3, 89), (4, 94), (5, 98), (6, 103), (7, 107), (8, 112), (9, 116), (10, 121), (11, 125), (12, 130), (13, 134)]),
  (mkRat 17 2, [(1, 84), (2, 89), (3, 94), (4, 99), (5, 104), (6, 109), (7, 114), (8, 119), (9, 124), (10, 129), (11, 134), (12, 139), (13, 144)]),
  (9, [(1, 87), (2, 93), (3, 98), (4, 104), (5, 109), (6, 115), (7, 120), (8, 126), (9, 131), (10, 137), (11, 142), (12, 148), (13, 153)]),
  (mkRat 19 2, [(1, 96), (2, 102), (3, 107), (4, 113), (5, 119), (6, 125), (7, 130), (8, 136), (9, 142), (10, 148), (11, 153), (12, 159), (13, 165)]),
  (10, [(1, 104), (2, 110), (3, 116), (4, 122), (5, 128), (6, 134), (7, 140), (8, 146), (9, 152), (10, 158), (11, 164), (12, 170), (13, 176)]),
  (mkRat 21 2, [(1, 108), (2, 115), (3, 121), (4, 128), (5, 134), (6, 141), (7, 147), (8, 154), (9, 160), (10, 167), (11, 173), (12, 180), (13, 186)]),
  (11, [(1, 111), (2, 118), (3, 125), (4, 132), (5, 139), (6, 146), (7, 153), (8, 160), (9, 167), (10, 174), (11, 181), (12, 188), (13, 195)]),
  (mkRat 23 2, [(1, 120), (2, 128), (3, 135), (4, 143), (5, 150), (6, 158), (7, 165), (8, 173), (9, 180), (10, 188), (11, 195), (12, 203), (13, 210)]),
  (12, [(1, 128), (2, 136), (3, 144), (4, 152), (5, 160), (6, 168), (7, 176), (8, 184), (9, 192), (10, 200), (11, 208), (12, 216), (13, 224)]),
  (mkRat 25 2, [(1, 132), (2, 141), (3, 149), (4, 158), (5, 166), (6, 175), (7, 183), (8, 192), (9, 200), (10, 209), (11, 217), (12, 226), (13, 234)]),
  (13, [(1, 135), (2, 144), (3, 153), (4, 162), (5, 171), (6, 180), (7, 189), (8, 198), (9, 207), (10, 216), (11, 225), (12, 234), (13, 243)]),
  (mkRat 27 2, [(1, 141), (2, 151), (3, 160), (4, 170), (5, 179), (6, 189), (7, 198), (8, 208), (9, 217), (10, 227), (11, 236), (12, 246), (13, 255)]),
  (14, [(1, 147), (2, 157), (3, 167), (4, 177), (5, 187), (6, 197), (7, 207), (8, 217), (9, 227), (10, 237), (11, 247), (12, 257), (13, 267)]),
  (mkRat 29 2, [(1, 151), (2, 162), (3, 172), (4, 183), (5, 193), (6, 204), (7, 214), (8, 225), (9, 235), (10, 246), (11, 256), (12, 268), (13, 280)]),
  (15, [(1, 155), (2, 166), (3, 177), (4, 188), (5, 199), (6, 210), (7, 221), (8, 232), (9, 243), (10, 254), (11, 265), (12, 279), (13, 292)]),
  (mkRat 31 2, [(1, 162), (2, 174), (3, 185), (4, 197), (5, 208), (6, 220), (7, 231), (8, 243), (9, 254), (10, 267), (11, 279), (12, 293), (13, 307)]),
  (16, [(1, 168), (2, 180), (3, 192), (4, 204), (5, 216), (6, 228), (7, 240), (8, 252), (9, 264), (10, 279), (11, 293), (12, 308), (13, 322)]),
  (mkRat 33 2, [(1, 172), (2, 185), (3, 197), (4, 210), (5, 222), (6, 235), (7, 247), (8, 261), (9, 275), (10, 290), (11, 305), (12, 320), (13, 335)]),
  (17, [(1, 176), (2, 189), (3, 202), (4, 215), (5, 228), (6, 241), (7, 254), (8, 270), (9, 285), (10, 301), (11, 316), (12, 332), (13, 347)])]

/-- Communication and Frame points table. -/
def COMMUNICATION_FRAME_TABLE : List (ℚ × List (ℚ × ℤ)) := [
  (1, [(1, 10), (2, 18), (3, 25), (4, 30)]),
  (2, [(1, 22), (2, 33), (3, 35), (4, 45)]),
  (3, [(1, 33), (2, 40), (3, 50), (4, 55)]),
  (4, [(1, 45), (2, 55), (3, 65), (4, 75)]),
  (5, [(1, 60), (2, 70), (3, 80), (4, 95)])]

/-- Innovation and Complexity points table. -/
def INNOVATION_COMPLEXITY_TABLE : List (ℚ × List (ℚ × ℤ)) := [
  (1, [(1, 10), (2, 13), (3, 18), (4, 25)]),
  (2, [(1, 18), (2, 23), (3, 25), (4, 30)]),
  (3, [(1, 33), (2, 38), (3, 40), (4, 45)]),
  (4, [(1, 45), (2, 53), (3, 55), (4, 65)]),
  (5, [(1, 60), (2, 75), (3, 80), (4, 95)]),
  (6, [(1, 80), (2, 95), (3, 110), (4, 140)])]

/-- Knowledge and Teams points table. -/
def KNOWLEDGE_TEAMS_TABLE : List (ℚ × List (ℚ × ℤ)) := [
  (1, [(1, 15), (mkRat 3 2, 23), (2, 30), (mkRat 5 2, 45), (3, 60)]),
  (2, [(1, 30), (mkRat 3 2, 40), (2, 48), (mkRat 5 2, 63), (3, 78)]),
  (3, [(1, 50), (mkRat 3 2, 58), (2, 65), (mkRat 5 2, 80), (3, 95)]),
  (4, [(1, 63), (mkRat 3 2, 70), (2, 78), (mkRat 5 2, 93), (3, 108)]),
  (5, [(1, 75), (mkRat 3 2, 83), (2, 90), (mkRat 5 2, 105), (3, 120)]),
  (6, [(1, 90), (mkRat 3 2, 113), (2, 125), (mkRat 5 2, 138), (3, 150)]),
  (7, [(1, 113), (mkRat 3 2, 131), (2, 148), (mkRat 5 2, 161), (3, 173)]),
  (8, [(1, 180), (mkRat 3 2, 198), (2, 215), (mkRat 5 2, 228), (3, 240)])]

/-- Breadth points table (single axis). -/
def BREADTH_TABLE : List (ℚ × ℤ) := [(1, 0), (mkRat 3 2, 5), (2, 10), (mkRat 5 2, 15), (3, 20)]

/-- IPE score to level mapping: (low, high, level) bands. -/
def IPE_LEVEL_MAPPING : List (ℤ × ℤ × ℤ) := [
  (40, 41, 1), (42, 43, 2), (44, 45, 3), (46, 47, 4),
  (48, 50, 5), (51, 52, 6), (53, 55, 7), (56, 57, 8),
  (58, 59, 9), (60, 61, 10), (62, 65, 11), (66, 73, 12)]

/-- The ratings dict as read by calculate_ipe_score: one optional value per
dimension key the engine accesses, so a missing key is representable. -/
structure Ratings where
  impact : Option ℚ
  contribution : Option ℚ
  communication : Option ℚ
  frame : Option ℚ
  innovation : Option ℚ
  complexity : Option ℚ
  knowledge : Option ℚ
  teams : Option ℚ
  breadth : Option ℚ
deriving DecidableEq

/-- Step 1 row key: impact = int(ratings.get("impact", 1)). -/
def impactKey (r : Ratings) : ℤ := pyInt (r.impact.getD 1)

/-- Step 1: intermediate value from the Impact and Contribution lookup,
IMPACT_CONTRIBUTION_TABLE.get(impact, emptydict).get(contribution, 1). -/
def intermediate_value (r : Ratings) : ℚ :=
  lookup2 IMPACT_CONTRIBUTION_TABLE (impactKey r : ℚ) (r.contribution.getD 1) 1

/-- Step 2: IMPACT_SIZE_TABLE.get(intermediate_value, emptydict).get(int(size), 0). -/
def impact_contrib_size_pts (r : Ratings) (size : ℚ) : ℤ :=
  lookup2 IMPACT_SIZE_TABLE (intermediate_value r) (pyInt size : ℚ) 0

/-- COMMUNICATION_FRAME_TABLE.get(int(communication), emptydict).get(frame, 0). -/
def comm_frame_pts (r : Ratings) : ℤ :=
  lookup2 COMMUNICATION_FRAME_TABLE (pyInt (r.communication.getD 1) : ℚ) (r.frame.getD 1) 0

/-- INNOVATION_COMPLEXITY_TABLE.get(int(innovation), emptydict).get(complexity, 0). -/
def innov_complex_pts (r : Ratings) : ℤ :=
  lookup2 INNOVATION_COMPLEXITY_TABLE (pyInt (r.innovation.getD 1) : ℚ) (r.complexity.getD 1) 0

/-- KNOWLEDGE_TEAMS_TABLE.get(int(knowledge), emptydict).get(teams, 0). -/
def knowledge_teams_pts (r : Ratings) : ℤ :=
  lookup2 KNOWLEDGE_TEAMS_TABLE (pyInt (r.knowledge.getD 1) : ℚ) (r.teams.getD 1) 0

/-- BREADTH_TABLE.get(breadth, 0). -/
def breadth_pts (r : Ratings) : ℤ :=
  lookup1 BREADTH_TABLE (r.breadth.getD 1) 0

/-- Total points: sum of the five component point values. -/
def total_pts (r : Ratings) (size : ℚ) : ℤ :=
  impact_contrib_size_pts r size + comm_frame_pts r + innov_complex_pts r +
    knowledge_teams_pts r + breadth_pts r

/-- The breakdown dict returned by calculate_ipe_score. -/
structure Breakdown where
  impact_contribution_size : ℤ
  intermediate_value : ℚ
  communication_frame : ℤ
  innovation_complexity : ℤ
  knowledge_teams : ℤ
  breadth : ℤ
  size : ℚ
  total : ℤ
deriving DecidableEq

/-- calculate_ipe_score: (ipe_score, breakdown); ipe_score is
int((total_pts - 26) / 25 + 40) when total_pts > 26 and None otherwise. -/
def calculate_ipe_score (r : Ratings) (size : ℚ) : Option ℤ × Breakdown :=
  (if total_pts r size > 26 then
     some (pyInt ((((total_pts r size : ℤ) : ℚ) - 26) / 25 + 40))
   else none,
   { impact_contribution_size := impact_contrib_size_pts r size
     intermediate_value := intermediate_value r
     communication_frame := comm_frame_pts r
     innovation_complexity := innov_complex_pts r
     knowledge_teams := knowledge_teams_pts r
     breadth := breadth_pts r
     size := size
     total := total_pts r size })

/-- score_to_level: first band of IPE_LEVEL_MAPPING containing the score,
with fallback level 1 when no band matches. -/
def score_to_level_go : List (ℤ × ℤ × ℤ) → ℤ → ℤ
  | [], _ => 1
  | (lo, hi, level) :: rest, s =>
      if lo ≤ s ∧ s ≤ hi then level else score_to_level_go rest s

/-- Convert an IPE score to a level 1 to 12. -/
def score_to_level (s : ℤ) : ℤ := score_to_level_go IPE_LEVEL_MAPPING s

/-- Allowed Impact ratings (integers 1 to 5, no half steps). -/
def impactValues : List ℚ := [1, 2, 3, 4, 5]

/-- Allowed Contribution ratings (1 to 5 in half steps). -/
def contributionValues : List ℚ :=
  [1, mkRat 3 2, 2, mkRat 5 2, 3, mkRat 7 2, 4, mkRat 9 2, 5]

/-- Allowed Communication ratings (1 to 5 in half steps). -/
def communicationValues : List ℚ :=
  [1, mkRat 3 2, 2, mkRat 5 2, 3, mkRat 7 2, 4, mkRat 9 2, 5]

/-- Allowed Frame ratings (integers 1 to 4). -/
def frameValues : List ℚ := [1, 2, 3, 4]

/-- Allowed Innovation ratings (1 to 6 in half steps). -/
def innovationValues : List ℚ :=
  [1, mkRat 3 2, 2, mkRat 5 2, 3, mkRat 7 2, 4, mkRat 9 2, 5, mkRat 11 2, 6]

/-- Allowed Complexity ratings (integers 1 to 4). -/
def complexityValues : List ℚ := [1, 2, 3, 4]

/-- Allowed Knowledge ratings (1 to 8 in half steps). -/
def knowledgeValues : List ℚ :=
  [1, mkRat 3 2, 2, mkRat 5 2, 3, mkRat 7 2, 4, mkRat 9 2, 5, mkRat 11 2, 6,
   mkRat 13 2, 7, mkRat 15 2, 8]

/-- Allowed Teams ratings. -/
def teamsValues : List ℚ := [1, mkRat 3 2, 2, mkRat 5 2, 3]

/-- Allowed Breadth ratings. -/
def breadthValues : List ℚ := [1, mkRat 3 2, 2, mkRat 5 2, 3]

/-- Allowed Size factors (1 to 13, step one half). -/
def sizeValues : List ℚ :=
  [1, mkRat 3 2, 2, mkRat 5 2, 3, mkRat 7 2, 4, mkRat 9 2, 5, mkRat 11 2, 6,
   mkRat 13 2, 7, mkRat 15 2, 8, mkRat 17 2, 9, mkRat 19 2, 10, mkRat 21 2, 11,
   mkRat 23 2, 12, mkRat 25 2, 13]

/-- A rating vector is valid when every dimension key is present and its
value lies in that dimension's allowed discrete set. -/
def ValidRatings (r : Ratings) : Prop :=
  (∃ v ∈ impactValues, r.impact = some v) ∧
  (∃ v ∈ contributionValues, r.contribution = some v) ∧
  (∃ v ∈ communicationValues, r.communication = some v) ∧
  (∃ v ∈ frameValues, r.frame = some v) ∧
  (∃ v ∈ innovationValues, r.innovation = some v) ∧
  (∃ v ∈ complexityValues, r.complexity = some v) ∧
  (∃ v ∈ knowledgeValues, r.knowledge = some v) ∧
  (∃ v ∈ teamsValues, r.teams = some v) ∧
  (∃ v ∈ breadthValues, r.breadth = some v)

/-- Validity of a ratings vector is decidable. -/
instance (r : Ratings) : Decidable (ValidRatings r) := by
  unfold ValidRatings
  infer_instance

/-- Consecutive pairs of a list of allowed values: each rating together with
the next defined step. -/
def stepPairs (l : List ℚ) : List (ℚ × ℚ) := l.zip l.tail

/-- The Impact-Contribution-Size component as a function of the raw impact
and contribution values and the size factor. -/
def icsLookup (i c z : ℚ) : ℤ :=
  lookup2 IMPACT_SIZE_TABLE (lookup2 IMPACT_CONTRIBUTION_TABLE (pyInt i : ℚ) c 1)
    (pyInt z : ℚ) 0

/-- The Communication-Frame component as a function of the raw values. -/
def cfLookup (c f : ℚ) : ℤ :=
  lookup2 COMMUNICATION_FRAME_TABLE (pyInt c : ℚ) f 0

/-- The Innovation-Complexity component as a function of the raw values. -/
def inLookup (n x : ℚ) : ℤ :=
  lookup2 INNOVATION_COMPLEXITY_TABLE (pyInt n : ℚ) x 0

/-- The Knowledge-Teams component as a function of the raw values. -/
def ktLookup (k t : ℚ) : ℤ :=
  lookup2 KNOWLEDGE_TEAMS_TABLE (pyInt k : ℚ) t 0

/-- The Breadth component as a function of the raw value. -/
def bLookup (b : ℚ) : ℤ := lookup1 BREADTH_TABLE b 0

/-- Replace the impact rating. -/
def setImpact (r : Ratings) (v : ℚ) : Ratings := { r with impact := some v }

/-- Replace the contribution rating. -/
def setContribution (r : Ratings) (v : ℚ) : Ratings := { r with contribution := some v }

/-- Replace the communication rating. -/
def setCommunication (r : Ratings) (v : ℚ) : Ratings := { r with communication := some v }

/-- Replace the frame rating. -/
def setFrame (r : Ratings) (v : ℚ) : Ratings := { r with frame := some v }

/-- Replace the innovation rating. -/
def setInnovation (r : Ratings) (v : ℚ) : Ratings := { r with innovation := some v }

/-- Replace the complexity rating. -/
def setComplexity (r : Ratings) (v : ℚ) : Ratings := { r with complexity := some v }

/-- Replace the knowledge rating. -/
def setKnowledge (r : Ratings) (v : ℚ) : Ratings := { r with knowledge := some v }

/-- Replace the teams rating. -/
def setTeams (r : Ratings) (v : ℚ) : Ratings := { r with teams := some v }

/-- Replace the breadth rating. -/
def setBreadth (r : Ratings) (v : ℚ) : Ratings := { r with breadth := some v }

/-- Fill every missing dimension key with the default rating 1, the value
the engine substitutes through dict.get. -/
def fillMissing (r : Ratings) : Ratings :=
  { impact := some (r.impact.getD 1)
    contribution := some (r.contribution.getD 1)
    communication := some (r.communication.getD 1)
    frame := some (r.frame.getD 1)
    innovation := some (r.innovation.getD 1)
    complexity := some (r.complexity.getD 1)
    knowledge := some (r.knowledge.getD 1)
    teams := some (r.teams.getD 1)
    breadth := some (r.breadth.getD 1) }

/-- The worked example of the spec: Impact 4, Contribution 4, Communication 4,
Frame 3, Innovation 4, Complexity 3, Knowledge 7, Teams 2.5, Breadth 2.5. -/
def exampleRatings : Ratings :=
  ⟨some 4, some 4, some 4, some 3, some 4, some 3, some 7,
   some (mkRat 5 2), some (mkRat 5 2)⟩

/-- A ratings dict with every dimension key missing. -/
def emptyRatings : Ratings := ⟨none, none, none, none, none, none, none, none, none⟩

/-- A ratings dict rated 1 on every dimension. -/
def baseRatings : Ratings :=
  ⟨some 1, some 1, some 1, some 1, some 1, some 1, some 1, some 1, some 1⟩

/-- A ratings dict whose frame, complexity, teams and breadth values miss
every table column, driving the total to 0. -/
def lowRatings : Ratings :=
  ⟨none, none, none, some 0, none, some 0, none, some 0, some 0⟩

/-- A ratings dict whose contribution value 99 misses the columns of row 1
of the Impact and Contribution table. -/
def missRatings : Ratings :=
  ⟨some 1, some 99, none, none, none, none, none, none, none⟩

/-- A ratings dict on which every table lookup of the engine misses. -/
def allMissRatings : Ratings :=
  ⟨some 1, some 99, some 1, some 99, some 1, some 99, some 1, some 99, some 99⟩

/-- On a nonnegative rational, Python truncation agrees with the floor. -/
theorem pyInt_of_nonneg (q : ℚ) (h : 0 ≤ q) : pyInt q = ⌊q⌋ := by
  obtain ⟨m, hm⟩ := Int.eq_ofNat_of_zero_le (Rat.num_nonneg.2 h)
  unfold pyInt
  rw [Rat.floor_def, hm]
  rfl

/-- Floor of the banded linear formula in terms of integer division. -/
theorem floor_band (t : ℤ) : ⌊((t : ℚ) - 26) / 25⌋ = (t - 26) / 25 := by
  have h1 : ((t : ℚ) - 26) = ((t - 26 : ℤ) : ℚ) := by push_cast; ring
  have h2 : (25 : ℚ) = ((25 : ℕ) : ℚ) := by norm_num
  rw [h1, h2, Rat.floor_intCast_div_natCast]
  norm_num

/-- When the total exceeds 26, the score component of calculate_ipe_score is
the banded linear formula, in integer-division form. -/
theorem ipe_fst (r : Ratings) (size : ℚ) (h : 26 < total_pts r size) :
    (calculate_ipe_score r size).1 = some ((total_pts r size - 26) / 25 + 40) := by
  have h27 : (27 : ℚ) ≤ ((total_pts r size : ℤ) : ℚ) := by exact_mod_cast h
  have hq : (0 : ℚ) ≤ (((total_pts r size : ℤ) : ℚ) - 26) / 25 + 40 := by
    have hd : (0 : ℚ) ≤ (((total_pts r size : ℤ) : ℚ) - 26) / 25 := by
      apply div_nonneg _ (by norm_num)
      linarith
    linarith
  simp only [calculate_ipe_score, h, if_pos]
  rw [pyInt_of_nonneg _ hq]
  rw [show (40 : ℚ) = ((40 : ℤ) : ℚ) by norm_num, Int.floor_add_int, floor_band]

/-- Claim C1: for every ratings vector and size whose lookups produce a
total strictly greater than 26, calculate_ipe_score returns exactly the
floor of (TotalPoints minus 26) over 25, plus 40. -/
theorem claim_C1 (r : Ratings) (size : ℚ)
    (h : 26 < (calculate_ipe_score r size).2.total) :
    (calculate_ipe_score r size).1 =
      some (⌊(((calculate_ipe_score r size).2.total : ℚ) - 26) / 25⌋ + 40) := by
  have ht : (calculate_ipe_score r size).2.total = total_pts r size := rfl
  rw [ht] at h ⊢
  rw [ipe_fst r size h, floor_band]

/-- Witness for claim C1 at the worked example, whose total is 494. -/
theorem claim_C1_witness :
    (calculate_ipe_score exampleRatings 8).1 =
      some (⌊(((calculate_ipe_score exampleRatings 8).2.total : ℚ) - 26) / 25⌋ + 40) :=
  claim_C1 exampleRatings 8 (by decide)

/-- Claim C2: whenever the lookups produce a total of at most 26, the engine
reports no score: the score component is none. -/
theorem claim_C2 (r : Ratings) (size : ℚ)
    (h : (calculate_ipe_score r size).2.total ≤ 26) :
    (calculate_ipe_score r size).1 = none := by
  have ht : (calculate_ipe_score r size).2.total = total_pts r size := rfl
  rw [ht] at h
  simp only [calculate_ipe_score]
  rw [if_neg (by omega)]

/-- Witness for claim C2: with out-of-range frame, complexity, teams and
breadth values and size 0, the total is 0 and no score is produced. -/
theorem claim_C2_witness : (calculate_ipe_score lowRatings 0).1 = none :=
  claim_C2 lowRatings 0 (by decide)

/-- Counterexample for claim C3: the pair (1, 99) is absent from the Impact
and Contribution table, yet the Impact-Contribution-Size component of that
evaluation is 5, not 0: the intermediate lookup defaults to 1, which selects
row 1 of the Impact and Size table. -/
theorem claim_C3_counterexample :
    assoc2 IMPACT_CONTRIBUTION_TABLE (impactKey missRatings : ℚ)
        (missRatings.contribution.getD 1) = none ∧
      (calculate_ipe_score missRatings 7).2.intermediate_value = 1 ∧
      (calculate_ipe_score missRatings 7).2.impact_contribution_size = 5 ∧
      (5 : ℤ) ≠ 0 := by
  refine ⟨by decide, by decide, by decide, by decide⟩

/-- Claim C3 as amended: a missing pair yields 0 points in each of the five
points lookups and evaluation proceeds, while the Impact and Contribution
intermediate lookup defaults to the intermediate value 1 instead of to 0
points. -/
theorem claim_C3 (r : Ratings) (size : ℚ) :
    (assoc2 IMPACT_SIZE_TABLE (intermediate_value r) (pyInt size : ℚ) = none →
      (calculate_ipe_score r size).2.impact_contribution_size = 0) ∧
    (assoc2 COMMUNICATION_FRAME_TABLE (pyInt (r.communication.getD 1) : ℚ)
        (r.frame.getD 1) = none →
      (calculate_ipe_score r size).2.communication_frame = 0) ∧
    (assoc2 INNOVATION_COMPLEXITY_TABLE (pyInt (r.innovation.getD 1) : ℚ)
        (r.complexity.getD 1) = none →
      (calculate_ipe_score r size).2.innovation_complexity = 0) ∧
    (assoc2 KNOWLEDGE_TEAMS_TABLE (pyInt (r.knowledge.getD 1) : ℚ)
        (r.teams.getD 1) = none →
      (calculate_ipe_score r size).2.knowledge_teams = 0) ∧
    (assoc BREADTH_TABLE (r.breadth.getD 1) = none →
      (calculate_ipe_score r size).2.breadth = 0) ∧
    (assoc2 IMPACT_CONTRIBUTION_TABLE (impactKey r : ℚ) (r.contribution.getD 1) = none →
      (calculate_ipe_score r size).2.intermediate_value = 1) := by
  refine ⟨?_, ?_, ?_, ?_, ?_, ?_⟩ <;> intro h
  · show impact_contrib_size_pts r size = 0
    unfold impact_contrib_size_pts lookup2
    rw [h]; rfl
  · show comm_frame_pts r = 0
    unfold comm_frame_pts lookup2
    rw [h]; rfl
  · show innov_complex_pts r = 0
    unfold innov_complex_pts lookup2
    rw [h]; rfl
  · show knowledge_teams_pts r = 0
    unfold knowledge_teams_pts lookup2
    rw [h]; rfl
  · show breadth_pts r = 0
    unfold breadth_pts lookup1
    rw [h]; rfl
  · show intermediate_value r = 1
    unfold intermediate_value lookup2
    rw [h]; rfl

/-- Witness for the amended claim C3: a ratings dict on which every lookup
misses gives 0 points on all five components and intermediate value 1. -/
theorem claim_C3_witness :
    (calculate_ipe_score allMissRatings 0).2.impact_contribution_size = 0 ∧
    (calculate_ipe_score allMissRatings 0).2.communication_frame = 0 ∧
    (calculate_ipe_score allMissRatings 0).2.innovation_complexity = 0 ∧
    (calculate_ipe_score allMissRatings 0).2.knowledge_teams = 0 ∧
    (calculate_ipe_score allMissRatings 0).2.breadth = 0 ∧
    (calculate_ipe_score allMissRatings 0).2.intermediate_value = 1 :=
  ⟨(claim_C3 allMissRatings 0).1 (by decide),
   (claim_C3 allMissRatings 0).2.1 (by decide),
   (claim_C3 allMissRatings 0).2.2.1 (by decide),
   (claim_C3 allMissRatings 0).2.2.2.1 (by decide),
   (claim_C3 allMissRatings 0).2.2.2.2.1 (by decide),
   (claim_C3 allMissRatings 0).2.2.2.2.2 (by decide)⟩

/-- Counterexample for claim C5: a ratings dict with every dimension key
missing is malformed, yet the engine does not fail: it silently substitutes
defaults and returns the numeric score 40. -/
theorem claim_C5_counterexample :
    emptyRatings.impact = none ∧ (calculate_ipe_score emptyRatings 7).1 = some 40 :=
  ⟨rfl, (ipe_fst emptyRatings 7 (by decide)).trans (by decide)⟩

/-- Claim C5 as amended: the engine never fails fast on a malformed ratings
vector; a missing dimension key is silently given the default rating 1, so
every evaluation equals the evaluation of the vector with 1 filled in for
each missing key, and out-of-set values fall through to the lookup
defaults. -/
theorem claim_C5 (r : Ratings) (size : ℚ) :
    calculate_ipe_score r size = calculate_ipe_score (fillMissing r) size := rfl

/-- Claim C6: the spec's worked example: intermediate 13, components 198,
65, 55, 161, 15, total 494, IPE score 58 and level 9. -/
theorem claim_C6 :
    (calculate_ipe_score exampleRatings 8).2.intermediate_value = 13 ∧
    (calculate_ipe_score exampleRatings 8).2.impact_contribution_size = 198 ∧
    (calculate_ipe_score exampleRatings 8).2.communication_frame = 65 ∧
    (calculate_ipe_score exampleRatings 8).2.innovation_complexity = 55 ∧
    (calculate_ipe_score exampleRatings 8).2.knowledge_teams = 161 ∧
    (calculate_ipe_score exampleRatings 8).2.breadth = 15 ∧
    (calculate_ipe_score exampleRatings 8).2.total = 494 ∧
    (calculate_ipe_score exampleRatings 8).1 = some 58 ∧
    score_to_level 58 = 9 :=
  ⟨by decide, by decide, by decide, by decide, by decide, by decide, by decide,
   (ipe_fst exampleRatings 8 (by decide)).trans (by decide), by decide⟩

/-- Claim C8: every two-axis lookup keys its row by the truncated primary
rating and its column by the exact secondary value; the Impact and Size
lookup instead keys its row by the intermediate value and its column by the
truncated size; and truncation is not rounding: int of 3.5 is 3. -/
theorem claim_C8 (r : Ratings) (size : ℚ) :
    (calculate_ipe_score r size).2.intermediate_value =
      lookup2 IMPACT_CONTRIBUTION_TABLE (pyInt (r.impact.getD 1) : ℚ)
        (r.contribution.getD 1) 1 ∧
    (calculate_ipe_score r size).2.communication_frame =
      lookup2 COMMUNICATION_FRAME_TABLE (pyInt (r.communication.getD 1) : ℚ)
        (r.frame.getD 1) 0 ∧
    (calculate_ipe_score r size).2.innovation_complexity =
      lookup2 INNOVATION_COMPLEXITY_TABLE (pyInt (r.innovation.getD 1) : ℚ)
        (r.complexity.getD 1) 0 ∧
    (calculate_ipe_score r size).2.knowledge_teams =
      lookup2 KNOWLEDGE_TEAMS_TABLE (pyInt (r.knowledge.getD 1) : ℚ)
        (r.teams.getD 1) 0 ∧
    (calculate_ipe_score r size).2.impact_contribution_size =
      lookup2 IMPACT_SIZE_TABLE ((calculate_ipe_score r size).2.intermediate_value)
        (pyInt size : ℚ) 0 ∧
    pyInt (mkRat 7 2) = 3 :=
  ⟨rfl, rfl, rfl, rfl, rfl, by decide⟩

/-- Claim C9: the engine is deterministic: equal inputs give equal score
and breakdown, and equal scores give equal levels; the embedding is a pure
function of its inputs. -/
theorem claim_C9 (r r2 : Ratings) (size size2 : ℚ) (s s2 : ℤ)
    (hr : r = r2) (hs : size = size2) (hv : s = s2) :
    calculate_ipe_score r size = calculate_ipe_score r2 size2 ∧
      score_to_level s = score_to_level s2 := by
  subst hr hs hv
  exact ⟨rfl, rfl⟩

/-- Witness for claim C9 at the worked example. -/
theorem claim_C9_witness :
    calculate_ipe_score exampleRatings 8 = calculate_ipe_score exampleRatings 8 ∧
      score_to_level 58 = score_to_level 58 :=
  claim_C9 exampleRatings exampleRatings 8 8 58 58 rfl rfl rfl

/-- Claim C10: a defined score is always an integer of at least 40, hence
never zero, so truthiness separates a defined score from none. -/
theorem claim_C10 (r : Ratings) (size : ℚ) (n : ℤ)
    (h : (calculate_ipe_score r size).1 = some n) : 40 ≤ n ∧ n ≠ 0 := by
  by_cases h26 : 26 < total_pts r size
  · rw [ipe_fst r size h26] at h
    have hn : n = (total_pts r size - 26) / 25 + 40 := by
      exact (Option.some_inj.1 h).symm
    have hd : 0 ≤ (total_pts r size - 26) / 25 :=
      Int.ediv_nonneg (by omega) (by omega)
    omega
  · have : (calculate_ipe_score r size).1 = none := by
      simp only [calculate_ipe_score]
      rw [if_neg h26]
    rw [this] at h
    exact absurd h (by simp)

/-- Witness for claim C10: the all-defaults evaluation yields the defined
score 40, which is at least 40 and nonzero. -/
theorem claim_C10_witness : 40 ≤ (40 : ℤ) ∧ (40 : ℤ) ≠ 0 :=
  claim_C10 emptyRatings 7 40 ((ipe_fst emptyRatings 7 (by decide)).trans (by decide))

/-- When no band of the list contains the score, the fold falls through to
the default level 1. -/
theorem score_to_level_go_eq_one (l : List (ℤ × ℤ × ℤ)) (s : ℤ)
    (h : ∀ b ∈ l, ¬(b.1 ≤ s ∧ s ≤ b.2.1)) : score_to_level_go l s = 1 := by
  induction l with
  | nil => rfl
  | cons b rest ih =>
    obtain ⟨lo, hi, level⟩ := b
    show (if lo ≤ s ∧ s ≤ hi then level else score_to_level_go rest s) = 1
    rw [if_neg (h (lo, hi, level) (List.mem_cons_self _ _))]
    exact ih fun b2 hb2 => h b2 (List.mem_cons_of_mem _ hb2)


/-- Claim C4: every integer score in 40 to 73 matches exactly one band of
the level table and score_to_level returns that band's level; every score
outside 40 to 73 falls back to level 1. -/
theorem claim_C4 (s : ℤ) :
    ((40 ≤ s ∧ s ≤ 73) →
      (IPE_LEVEL_MAPPING.countP (fun b => decide (b.1 ≤ s ∧ s ≤ b.2.1))) = 1 ∧
      ∀ b ∈ IPE_LEVEL_MAPPING, b.1 ≤ s ∧ s ≤ b.2.1 → score_to_level s = b.2.2) ∧
    (¬(40 ≤ s ∧ s ≤ 73) → score_to_level s = 1) := by
  constructor
  · rintro ⟨h1, h2⟩
    interval_cases s <;> exact ⟨by decide, by decide⟩
  · intro h
    apply score_to_level_go_eq_one
    intro b hb
    fin_cases hb <;> simp only <;> omega

/-- Witness for claim C4: score 58 is in range and maps to level 9 through
its unique band, and the out-of-range score 99 falls back to level 1. -/
theorem claim_C4_witness :
    (IPE_LEVEL_MAPPING.countP (fun b => decide (b.1 ≤ (58 : ℤ) ∧ (58 : ℤ) ≤ b.2.1))) = 1 ∧
      score_to_level 58 = 9 ∧ score_to_level 99 = 1 := by
  have h := (claim_C4 58).1 ⟨by decide, by decide⟩
  exact ⟨h.1, h.2 (58, 59, 9) (by decide) ⟨by decide, by decide⟩, (claim_C4 99).2 (by omega)⟩

/-- Monotonicity of the composed Impact-Contribution-Size lookup in an
impact step. -/
theorem dec_ics_impact : ∀ p ∈ stepPairs impactValues, ∀ c ∈ contributionValues,
    ∀ z ∈ sizeValues, icsLookup p.1 c z ≤ icsLookup p.2 c z := by decide

/-- Monotonicity of the composed Impact-Contribution-Size lookup in a
contribution step. -/
theorem dec_ics_contribution : ∀ p ∈ stepPairs contributionValues, ∀ i ∈ impactValues,
    ∀ z ∈ sizeValues, icsLookup i p.1 z ≤ icsLookup i p.2 z := by decide

/-- Monotonicity of the Communication-Frame lookup in a communication step. -/
theorem dec_cf_comm : ∀ p ∈ stepPairs communicationValues, ∀ f ∈ frameValues,
    cfLookup p.1 f ≤ cfLookup p.2 f := by decide

/-- Monotonicity of the Communication-Frame lookup in a frame step. -/
theorem dec_cf_frame : ∀ p ∈ stepPairs frameValues, ∀ c ∈ communicationValues,
    cfLookup c p.1 ≤ cfLookup c p.2 := by decide

/-- Monotonicity of the Innovation-Complexity lookup in an innovation step. -/
theorem dec_in_innov : ∀ p ∈ stepPairs innovationValues, ∀ x ∈ complexityValues,
    inLookup p.1 x ≤ inLookup p.2 x := by decide

/-- Monotonicity of the Innovation-Complexity lookup in a complexity step. -/
theorem dec_in_complex : ∀ p ∈ stepPairs complexityValues, ∀ n ∈ innovationValues,
    inLookup n p.1 ≤ inLookup n p.2 := by decide

/-- Monotonicity of the Knowledge-Teams lookup in a knowledge step. -/
theorem dec_kt_knowledge : ∀ p ∈ stepPairs knowledgeValues, ∀ t ∈ teamsValues,
    ktLookup p.1 t ≤ ktLookup p.2 t := by decide

/-- Monotonicity of the Knowledge-Teams lookup in a teams step. -/
theorem dec_kt_teams : ∀ p ∈ stepPairs teamsValues, ∀ k ∈ knowledgeValues,
    ktLookup k p.1 ≤ ktLookup k p.2 := by decide

/-- Monotonicity of the Breadth lookup in a breadth step. -/
theorem dec_b_breadth : ∀ p ∈ stepPairs breadthValues, bLookup p.1 ≤ bLookup p.2 := by
  decide

/-- Claim C7: on a valid ratings vector with a valid size factor, stepping
any single dimension to its next defined value never decreases the point
contribution of the component that dimension feeds. -/
theorem claim_C7 (r : Ratings) (hval : ValidRatings r) (size : ℚ)
    (hsize : size ∈ sizeValues) :
    (∀ p ∈ stepPairs impactValues, r.impact = some p.1 →
      impact_contrib_size_pts r size ≤ impact_contrib_size_pts (setImpact r p.2) size) ∧
    (∀ p ∈ stepPairs contributionValues, r.contribution = some p.1 →
      impact_contrib_size_pts r size ≤
        impact_contrib_size_pts (setContribution r p.2) size) ∧
    (∀ p ∈ stepPairs communicationValues, r.communication = some p.1 →
      comm_frame_pts r ≤ comm_frame_pts (setCommunication r p.2)) ∧
    (∀ p ∈ stepPairs frameValues, r.frame = some p.1 →
      comm_frame_pts r ≤ comm_frame_pts (setFrame r p.2)) ∧
    (∀ p ∈ stepPairs innovationValues, r.innovation = some p.1 →
      innov_complex_pts r ≤ innov_complex_pts (setInnovation r p.2)) ∧
    (∀ p ∈ stepPairs complexityValues, r.complexity = some p.1 →
      innov_complex_pts r ≤ innov_complex_pts (setComplexity r p.2)) ∧
    (∀ p ∈ stepPairs knowledgeValues, r.knowledge = some p.1 →
      knowledge_teams_pts r ≤ knowledge_teams_pts (setKnowledge r p.2)) ∧
    (∀ p ∈ stepPairs teamsValues, r.teams = some p.1 →
      knowledge_teams_pts r ≤ knowledge_teams_pts (setTeams r p.2)) ∧
    (∀ p ∈ stepPairs breadthValues, r.breadth = some p.1 →
      breadth_pts r ≤ breadth_pts (setBreadth r p.2)) := by
  obtain ⟨⟨iv, hiv, hie⟩, ⟨cv, hcv, hce⟩, ⟨mv, hmv, hme⟩, ⟨fv, hfv, hfe⟩,
    ⟨nv, hnv, hne⟩, ⟨xv, hxv, hxe⟩, ⟨kv, hkv, hke⟩, ⟨tv, htv, hte⟩,
    ⟨bv, hbv, hbe⟩⟩ := hval
  refine ⟨?_, ?_, ?_, ?_, ?_, ?_, ?_, ?_, ?_⟩ <;> intro p hp he
  · show icsLookup (r.impact.getD 1) (r.contribution.getD 1) size ≤
      icsLookup ((setImpact r p.2).impact.getD 1)
        ((setImpact r p.2).contribution.getD 1) size
    rw [show (setImpact r p.2).impact = some p.2 from rfl,
      show (setImpact r p.2).contribution = r.contribution from rfl,
      he, hce]
    simp only [Option.getD_some]
    exact dec_ics_impact p hp cv hcv size hsize
  · show icsLookup (r.impact.getD 1) (r.contribution.getD 1) size ≤
      icsLookup ((setContribution r p.2).impact.getD 1)
        ((setContribution r p.2).contribution.getD 1) size
    rw [show (setContribution r p.2).impact = r.impact from rfl,
      show (setContribution r p.2).contribution = some p.2 from rfl,
      he, hie]
    simp only [Option.getD_some]
    exact dec_ics_contribution p hp iv hiv size hsize
  · show cfLookup (r.communication.getD 1) (r.frame.getD 1) ≤
      cfLookup ((setCommunication r p.2).communication.getD 1)
        ((setCommunication r p.2).frame.getD 1)
    rw [show (setCommunication r p.2).communication = some p.2 from rfl,
      show (setCommunication r p.2).frame = r.frame from rfl, he, hfe]
    simp only [Option.getD_some]
    exact dec_cf_comm p hp fv hfv
  · show cfLookup (r.communication.getD 1) (r.frame.getD 1) ≤
      cfLookup ((setFrame r p.2).communication.getD 1)
        ((setFrame r p.2).frame.getD 1)
    rw [show (setFrame r p.2).communication = r.communication from rfl,
      show (setFrame r p.2).frame = some p.2 from rfl, he, hme]
    simp only [Option.getD_some]
    exact dec_cf_frame p hp mv hmv
  · show inLookup (r.innovation.getD 1) (r.complexity.getD 1) ≤
      inLookup ((setInnovation r p.2).innovation.getD 1)
        ((setInnovation r p.2).complexity.getD 1)
    rw [show (setInnovation r p.2).innovation = some p.2 from rfl,
      show (setInnovation r p.2).complexity = r.complexity from rfl, he, hxe]
    simp only [Option.getD_some]
    exact dec_in_innov p hp xv hxv
  · show inLookup (r.innovation.getD 1) (r.complexity.getD 1) ≤
      inLookup ((setComplexity r p.2).innovation.getD 1)
        ((setComplexity r p.2).complexity.getD 1)
    rw [show (setComplexity r p.2).innovation = r.innovation from rfl,
      show (setComplexity r p.2).complexity = some p.2 from rfl, he, hne]
    simp only [Option.getD_some]
    exact dec_in_complex p hp nv hnv
  · show ktLookup (r.knowledge.getD 1) (r.teams.getD 1) ≤
      ktLookup ((setKnowledge r p.2).knowledge.getD 1)
        ((setKnowledge r p.2).teams.getD 1)
    rw [show (setKnowledge r p.2).knowledge = some p.2 from rfl,
      show (setKnowledge r p.2).teams = r.teams from rfl, he, hte]
    simp only [Option.getD_some]
    exact dec_kt_knowledge p hp tv htv
  · show ktLookup (r.knowledge.getD 1) (r.teams.getD 1) ≤
      ktLookup ((setTeams r p.2).knowledge.getD 1)
        ((setTeams r p.2).teams.getD 1)
    rw [show (setTeams r p.2).knowledge = r.knowledge from rfl,
      show (setTeams r p.2).teams = some p.2 from rfl, he, hke]
    simp only [Option.getD_some]
    exact dec_kt_teams p hp kv hkv
  · show bLookup (r.breadth.getD 1) ≤ bLookup ((setBreadth r p.2).breadth.getD 1)
    rw [show (setBreadth r p.2).breadth = some p.2 from rfl, he]
    simp only [Option.getD_some]
    exact dec_b_breadth p hp

/-- Witness for claim C7: stepping contribution from 1 to 1.5 on the
all-ones vector with size 7 does not decrease the Impact-Contribution-Size
component. -/
theorem claim_C7_witness :
    impact_contrib_size_pts baseRatings 7 ≤
      impact_contrib_size_pts (setContribution baseRatings (mkRat 3 2)) 7 :=
  (claim_C7 baseRatings (by decide) 7 (by decide)).2.1 (1, mkRat 3 2) (by decide) rfl

end JobEval
